import Mathlib

/-!
# Verification of the paw-app dashboard (`src/dashboard/app.py`)

A shallow embedding of the container-lifecycle dashboard: the code store is
an association list of root directory entries, the container runtime is a
list of container records, and each Flask route / helper of `app.py` becomes
a Lean function on this state.  Runtime calls issued by
`start_app_container` are additionally recorded as an explicit trace of
`DockerOp` events so that ordering properties (archive pushed after create
and before start, network attached twice) can be stated.
-/

set_option autoImplicit false

namespace Paw

/-- An entry directly under the code root `/apps-code`: either a plain file
or an app directory holding (filename, content) pairs.  `get_apps` filters
with `os.path.isdir`, so both kinds must be representable. -/
inductive FsEntry where
  | file (content : String)
  | dir (files : List (String × String))
  deriving DecidableEq, Repr

/-- A container record as the runtime sees it: name, live status, routing
labels, attached networks, working directory, the files synced into the
working directory, whether it was started, and its log lines. -/
structure ContainerRec where
  name : String
  image : String
  command : List String
  workingDir : String
  labels : List (String × String)
  networks : List String
  restartPolicy : String
  status : String
  started : Bool
  workdirFiles : List (String × String)
  logs : List String
  deriving DecidableEq, Repr

/-- The world the dashboard manipulates: the code-store root listing and the
container runtime's records. -/
structure SysState where
  rootFs : List (String × FsEntry)
  containers : List ContainerRec
  deriving DecidableEq, Repr

/-- One call into the container runtime, recorded for ordering properties. -/
inductive DockerOp where
  | removeForce (name : String)
  | create (name image workingDir network : String)
      (labels : List (String × String)) (restartPolicy : String)
  | networkConnect (network name : String)
  | putArchive (name path : String) (files : List (String × String))
  | start (name : String)
  deriving DecidableEq, Repr

/-- What a route hands back to the web layer. -/
inductive Response where
  | notFound (msg : String)
  | redirectIndex
  | renderEdit (app_name code : String)
  | renderLogs (app_name : String) (logs : List String)
  | serverError
  deriving DecidableEq, Repr

/-- One row of the dashboard listing produced by `get_apps`. -/
structure AppView where
  name : String
  status : String
  url : String
  https_url : String
  deriving DecidableEq, Repr

/-! ## Runtime and filesystem primitives -/

/-- `client.containers.get(name)`: the runtime resolves a container by name
(any status). -/
def findContainer : List ContainerRec → String → Option ContainerRec
  | [], _ => none
  | c :: cs, name => if c.name = name then some c else findContainer cs name

/-- `container.remove(force=True)`: the record leaves the runtime's
namespace (the runtime keeps names unique, so at most one record matches). -/
def removeByName : List ContainerRec → String → List ContainerRec
  | [], _ => []
  | c :: cs, name =>
      if c.name = name then removeByName cs name else c :: removeByName cs name

/-- Apply an update to the record(s) carrying a given name, as the runtime
does for `put_archive`, `network.connect` and `start`. -/
def mapByName (cs : List ContainerRec) (name : String) (f : ContainerRec → ContainerRec) :
    List ContainerRec :=
  cs.map (fun c => if c.name = name then f c else c)

/-- How many runtime records carry the given container name. -/
def countName : List ContainerRec → String → Nat
  | [], _ => 0
  | c :: cs, name => (if c.name = name then 1 else 0) + countName cs name

/-- Look up an entry of the root listing by name (`os.path` on
`/apps-code/<name>`). -/
def lookupEntry : List (String × FsEntry) → String → Option FsEntry
  | [], _ => none
  | (k, e) :: rest, name => if k = name then some e else lookupEntry rest name

/-- Look up a file inside an app directory. -/
def lookupFile : List (String × String) → String → Option String
  | [], _ => none
  | (k, v) :: rest, fname => if k = fname then some v else lookupFile rest fname

/-- `open(path, 'w')`: truncate-or-create a file inside a directory. -/
def writeFile : List (String × String) → String → String → List (String × String)
  | [], fname, content => [(fname, content)]
  | (k, v) :: rest, fname, content =>
      if k = fname then (k, content) :: rest else (k, v) :: writeFile rest fname content

/-- The last `n` elements of a list: `container.logs(tail=n)` semantics. -/
def lastN (n : Nat) (l : List String) : List String :=
  l.drop (l.length - n)

/-! ## Naming (`get_random_name`) -/

def adjectives : List String :=
  ["bright", "cold", "dark", "great", "high", "little", "new", "old", "shiny", "young"]

def nouns : List String :=
  ["river", "sea", "sky", "sun", "moon", "star", "tree", "wind", "fire", "snow"]

/-- `get_random_name`, with the random draws made explicit: `random.choice`
picks an index into each word list and `random.randint(100, 999)` yields
`k` with `100 ≤ k ≤ 999`. -/
def get_random_name (ai : Fin adjectives.length) (ni : Fin nouns.length) (k : Nat) : String :=
  adjectives.get ai ++ "-" ++ nouns.get ni ++ "-" ++ toString k

/-- `f"user-app-{app_name}"`. -/
def containerNameOf (app_name : String) : String :=
  "user-app-" ++ app_name

/-! ## State reconciler (`get_apps`) -/

/-- The `for app_name in os.listdir(APPS_CODE_DIR)` loop of `get_apps`:
skip non-directories, else derive the container name, take the container's
live status or `"stopped"`, and append one view row. -/
def get_apps_loop (cs : List ContainerRec) (baseDomain : String) :
    List (String × FsEntry) → List AppView
  | [] => []
  | (_, FsEntry.file _) :: rest => get_apps_loop cs baseDomain rest
  | (app_name, FsEntry.dir _) :: rest =>
      let container_name := "user-app-" ++ app_name
      let status :=
        match findContainer cs container_name with
        | some c => c.status
        | none => "stopped"
      { name := app_name
        status := status
        url := "http://" ++ app_name ++ "." ++ baseDomain
        https_url := "https://" ++ app_name ++ "." ++ baseDomain }
        :: get_apps_loop cs baseDomain rest

/-- `get_apps()`: list all containers, then walk the code root. -/
def get_apps (st : SysState) (baseDomain : String) : List AppView :=
  get_apps_loop st.containers baseDomain st.rootFs

/-- The status `get_apps` assigns to a directory name: the live container
status when `user-app-<name>` exists, `"stopped"` otherwise. -/
def statusOf (cs : List ContainerRec) (app_name : String) : String :=
  match findContainer cs ("user-app-" ++ app_name) with
  | some c => c.status
  | none => "stopped"

def isDirEntry : FsEntry → Bool
  | FsEntry.dir _ => true
  | FsEntry.file _ => false

/-! ## Container lifecycle (`start_app_container`) -/

/-- The label map built in `start_app_container`. -/
def start_labels (app_name baseDomain : String) : List (String × String) :=
  [("traefik.enable", "true"),
   ("traefik.http.routers." ++ app_name ++ "-secure.rule",
    "Host(`" ++ app_name ++ "." ++ baseDomain ++ "`)"),
   ("traefik.http.routers." ++ app_name ++ "-secure.entrypoints", "websecure"),
   ("traefik.http.routers." ++ app_name ++ "-secure.tls.certresolver", "myresolver"),
   ("traefik.http.routers." ++ app_name ++ "-secure.tls.domains[0].main",
    "*." ++ baseDomain),
   ("traefik.http.routers." ++ app_name ++ ".rule",
    "Host(`" ++ app_name ++ "." ++ baseDomain ++ "`)"),
   ("traefik.http.routers." ++ app_name ++ ".entrypoints", "web"),
   ("traefik.http.services." ++ app_name ++ ".loadbalancer.server.port", "5000")]

/-- The fixed bootstrap command of the spawned container. -/
def bootCommand : List String :=
  ["/bin/sh", "-c",
   "pip install Flask gunicorn requests && gunicorn --bind 0.0.0.0:5000 --access-logfile - --error-logfile - app:app"]

/-- `make_tarfile(app_host_path)`: `os.listdir` over the app directory and a
recursive `tar.add` of each entry, i.e. the full (flat) content of the app
directory; `none` when the directory is missing (`os.listdir` raises). -/
def appDirFiles (st : SysState) (app_name : String) : Option (List (String × String)) :=
  match lookupEntry st.rootFs app_name with
  | some (FsEntry.dir files) => some files
  | _ => none

/-- Result of one `start_app_container` call: the new world state, the trace
of runtime calls issued, and whether the call ran to completion (`ok = false`
models the uncaught exception when the app directory is missing, leaving the
partially provisioned container behind). -/
structure StartResult where
  state : SysState
  trace : List DockerOp
  ok : Bool
  deriving DecidableEq, Repr

/-- The container record as `client.containers.create` makes it in
`start_app_container`: fixed image, bootstrap command, working directory
`/user-app`, the routing labels, network `paw-web-network`, restart policy
`always`; not yet started, nothing synced, no logs. -/
def newContainerRec (baseDomain app_name : String) : ContainerRec :=
  { name := containerNameOf app_name
    image := "python:3.10-slim"
    command := bootCommand
    workingDir := "/user-app"
    labels := start_labels app_name baseDomain
    networks := ["paw-web-network"]
    restartPolicy := "always"
    status := "created"
    started := false
    workdirFiles := []
    logs := [] }

/-- `start_app_container(app_name)`, line by line: force-remove any existing
`user-app-<app_name>` container (NotFound ignored), create the new container
(image `python:3.10-slim`, working dir `/user-app`, labels, network
`paw-web-network`, restart policy `always`), connect it to `paw-web-network`
again explicitly, push the code archive into `/user-app`, then start it. -/
def start_app_container (st : SysState) (baseDomain app_name : String) : StartResult :=
  let container_name := containerNameOf app_name
  let removed :=
    match findContainer st.containers container_name with
    | some _ =>
        ({ st with containers := removeByName st.containers container_name },
         [DockerOp.removeForce container_name])
    | none => (st, ([] : List DockerOp))
  let st1 := removed.1
  let labels := start_labels app_name baseDomain
  let newC : ContainerRec := newContainerRec baseDomain app_name
  let st2 := { st1 with containers := st1.containers ++ [newC] }
  let tr2 := removed.2 ++
    [DockerOp.create container_name "python:3.10-slim" "/user-app" "paw-web-network"
      labels "always"]
  let st3 := { st2 with
    containers := mapByName st2.containers container_name
      (fun c => { c with networks := c.networks ++ ["paw-web-network"] }) }
  let tr3 := tr2 ++ [DockerOp.networkConnect "paw-web-network" container_name]
  match appDirFiles st app_name with
  | none => { state := st3, trace := tr3, ok := false }
  | some files =>
      let st4 := { st3 with
        containers := mapByName st3.containers container_name
          (fun c => { c with workdirFiles := files }) }
      let tr4 := tr3 ++ [DockerOp.putArchive container_name "/user-app" files]
      let st5 := { st4 with
        containers := mapByName st4.containers container_name
          (fun c => { c with started := true, status := "running" }) }
      { state := st5, trace := tr4 ++ [DockerOp.start container_name], ok := true }

/-- The record for `user-app-<app_name>` as it stands when
`start_app_container` returns: doubly attached to `paw-web-network`; synced
and started when the code directory existed, left created-but-unstarted when
`make_tarfile` raised. -/
def finalStartRec (st : SysState) (baseDomain app_name : String) : ContainerRec :=
  let base := { newContainerRec baseDomain app_name with
    networks := ["paw-web-network", "paw-web-network"] }
  match appDirFiles st app_name with
  | none => base
  | some files => { base with workdirFiles := files, started := true, status := "running" }

/-- `restart_app_container` just calls `start_app_container`. -/
def restart_app_container (st : SysState) (baseDomain app_name : String) : StartResult :=
  start_app_container st baseDomain app_name

/-! ## Edit route (`edit_app`) -/

/-- `os.path.exists(APPS_CODE_DIR/app_name/app.py)`. -/
def appPyExists (st : SysState) (app_name : String) : Bool :=
  match lookupEntry st.rootFs app_name with
  | some (FsEntry.dir files) => (lookupFile files "app.py").isSome
  | _ => false

/-- Read `APPS_CODE_DIR/app_name/app.py`. -/
def readAppPy (st : SysState) (app_name : String) : Option String :=
  match lookupEntry st.rootFs app_name with
  | some (FsEntry.dir files) => lookupFile files "app.py"
  | _ => none

/-- Write `code` into the `app.py` of the first root entry named `n` (real
directory listings carry each name once; the route has already checked the
file exists, so the no-directory case cannot be reached on that path). -/
def writeEntry : List (String × FsEntry) → String → String → List (String × FsEntry)
  | [], _, _ => []
  | (k, e) :: rest, n, code =>
      if k = n then
        (k, match e with
            | FsEntry.dir files => FsEntry.dir (writeFile files "app.py" code)
            | FsEntry.file c => FsEntry.file c) :: rest
      else (k, e) :: writeEntry rest n code

/-- `open(app_py_path, 'w').write(code)`. -/
def writeAppPy (st : SysState) (app_name code : String) : SysState :=
  { st with rootFs := writeEntry st.rootFs app_name code }

/-- The GET branch of `edit_app`: 404 when `app.py` is absent, otherwise
render the editor with the file's current content.  It only reads. -/
def edit_app_get (st : SysState) (app_name : String) : SysState × Response :=
  if appPyExists st app_name then
    match readAppPy st app_name with
    | some code => (st, Response.renderEdit app_name code)
    | none => (st, Response.notFound "App not found")
  else (st, Response.notFound "App not found")

/-- The POST branch of `edit_app`: 404 when `app.py` is absent, otherwise
overwrite it with the submitted code, restart the container, and redirect
(an exception escaping the restart would surface as a server error). -/
def edit_app_post (st : SysState) (baseDomain app_name code : String) :
    SysState × Response :=
  if appPyExists st app_name then
    let st1 := writeAppPy st app_name code
    let r := restart_app_container st1 baseDomain app_name
    (r.state, if r.ok then Response.redirectIndex else Response.serverError)
  else (st, Response.notFound "App not found")

/-! ## Delete route (`delete_app`) -/

/-- Drop the first root entry with the given name (`shutil.rmtree`). -/
def removeEntry : List (String × FsEntry) → String → List (String × FsEntry)
  | [], _ => []
  | (k, e) :: rest, n => if k = n then rest else (k, e) :: removeEntry rest n

/-- `delete_app`: force-remove the container if present (NotFound ignored),
then remove the code directory if the path exists (`shutil.rmtree` raises on
a non-directory, surfaced as a server error), then redirect. -/
def delete_app (st : SysState) (app_name : String) : SysState × Response :=
  let container_name := "user-app-" ++ app_name
  let st1 :=
    match findContainer st.containers container_name with
    | some _ => { st with containers := removeByName st.containers container_name }
    | none => st
  match lookupEntry st1.rootFs app_name with
  | some (FsEntry.dir _) =>
      ({ st1 with rootFs := removeEntry st1.rootFs app_name }, Response.redirectIndex)
  | some (FsEntry.file _) => (st1, Response.serverError)
  | none => (st1, Response.redirectIndex)

/-! ## Logs route (`get_logs`) -/

/-- `get_logs`: resolve `user-app-<app_name>`, render its last 100 log
lines (`container.logs(tail=100)`), or 404 when the container is absent. -/
def get_logs (st : SysState) (app_name : String) : SysState × Response :=
  let container_name := "user-app-" ++ app_name
  match findContainer st.containers container_name with
  | some c => (st, Response.renderLogs app_name (lastN 100 c.logs))
  | none => (st, Response.notFound "Container not found")

/-- Modelled from the spec: `fetch_logs(app_name, tail_lines)` "returns the
last `tail_lines` lines of combined output from the named container; fails
with NotFound if no such container exists".  The route `get_logs` in the
source takes no `tail_lines` parameter; this definition follows the spec's
words for comparison with the code's behavior. -/
def fetch_logs_spec (st : SysState) (app_name : String) (tail_lines : Nat) :
    Option (List String) :=
  (findContainer st.containers ("user-app-" ++ app_name)).map
    (fun c => lastN tail_lines c.logs)

/-! ## Pattern checker for generated names -/

/-- `[a-z]`. -/
def isLowerAZ (c : Char) : Bool :=
  'a' ≤ c && c ≤ 'z'

/-- Exactly three decimal digits, end of input (`\d\x7b3\x7d$`). -/
def threeDigits : List Char → Bool
  | [d1, d2, d3] => d1.isDigit && d2.isDigit && d3.isDigit
  | _ => false

/-- After the first letter of a word: consume further `[a-z]` until a `-`,
then hand the rest to the continuation. -/
def matchRest (k : List Char → Bool) : List Char → Bool
  | [] => false
  | c :: cs => if c = '-' then k cs else isLowerAZ c && matchRest k cs

/-- `[a-z]+-` followed by whatever the continuation accepts. -/
def matchWordDash (k : List Char → Bool) : List Char → Bool
  | [] => false
  | c :: cs => isLowerAZ c && matchRest k cs

/-- The anchored regex of the spec. -/
def matchesNamePattern (s : String) : Bool :=
  matchWordDash (matchWordDash threeDigits) s.toList

/-- Recognize a `create` call in a runtime trace. -/
def isCreate : DockerOp → Bool
  | DockerOp.create _ _ _ _ _ _ => true
  | _ => false

/-! ## Small concrete states used to instantiate the theorems -/

/-- One app directory `demo` holding a single `app.py`; no containers. -/
def demoState : SysState :=
  { rootFs := [("demo", FsEntry.dir [("app.py", "x = 1")])], containers := [] }

/-- A running container for `demo` with two log lines. -/
def demoContainer : ContainerRec :=
  { name := "user-app-demo"
    image := "python:3.10-slim"
    command := bootCommand
    workingDir := "/user-app"
    labels := start_labels "demo" "localhost"
    networks := ["paw-web-network"]
    restartPolicy := "always"
    status := "running"
    started := true
    workdirFiles := [("app.py", "x = 1")]
    logs := ["line one", "line two"] }

/-- The `demo` app together with its running container. -/
def demoStateRunning : SysState :=
  { rootFs := [("demo", FsEntry.dir [("app.py", "x = 1")])]
    containers := [demoContainer] }

/-! ## Helper lemmas on the runtime's container-name index -/

theorem countName_append (cs ds : List ContainerRec) (n : String) :
    countName (cs ++ ds) n = countName cs n + countName ds n := by
  induction cs with
  | nil => simp [countName]
  | cons c cs ih => simp [countName, ih]; omega

theorem countName_removeByName (cs : List ContainerRec) (n : String) :
    countName (removeByName cs n) n = 0 := by
  induction cs with
  | nil => rfl
  | cons c cs ih =>
      by_cases h : c.name = n <;> simp [removeByName, countName, h, ih]

theorem countName_eq_zero_of_find_none (cs : List ContainerRec) (n : String)
    (h : findContainer cs n = none) : countName cs n = 0 := by
  induction cs with
  | nil => rfl
  | cons c cs ih =>
      by_cases h1 : c.name = n
      · simp [findContainer, h1] at h
      · simp only [findContainer, h1, if_false] at h
        simp [countName, h1, ih h]

theorem removeByName_eq_self_of_find_none (cs : List ContainerRec) (n : String)
    (h : findContainer cs n = none) : removeByName cs n = cs := by
  induction cs with
  | nil => rfl
  | cons c cs ih =>
      by_cases h1 : c.name = n
      · simp [findContainer, h1] at h
      · simp only [findContainer, h1, if_false] at h
        simp [removeByName, h1, ih h]

theorem findContainer_removeByName (cs : List ContainerRec) (n : String) :
    findContainer (removeByName cs n) n = none := by
  induction cs with
  | nil => rfl
  | cons c cs ih =>
      by_cases h : c.name = n <;> simp [removeByName, findContainer, h, ih]

theorem findContainer_append_singleton (cs : List ContainerRec) (c : ContainerRec)
    (n : String) (hc : c.name = n) (h : findContainer cs n = none) :
    findContainer (cs ++ [c]) n = some c := by
  induction cs with
  | nil => simp [findContainer, hc]
  | cons d cs ih =>
      by_cases h1 : d.name = n
      · simp [findContainer, h1] at h
      · simp only [findContainer, h1, if_false] at h
        simp [findContainer, h1, ih h]

theorem mapByName_append (cs ds : List ContainerRec) (n : String)
    (f : ContainerRec → ContainerRec) :
    mapByName (cs ++ ds) n f = mapByName cs n f ++ mapByName ds n f := by
  simp [mapByName]

theorem mapByName_removeByName (cs : List ContainerRec) (n : String)
    (f : ContainerRec → ContainerRec) :
    mapByName (removeByName cs n) n f = removeByName cs n := by
  induction cs with
  | nil => rfl
  | cons c cs ih =>
      by_cases h : c.name = n <;> simp [removeByName, mapByName, h, ih] <;>
        simpa [mapByName] using ih

theorem mapByName_singleton_self (c : ContainerRec) (n : String)
    (f : ContainerRec → ContainerRec) (hc : c.name = n) :
    mapByName [c] n f = [f c] := by
  simp [mapByName, hc]

theorem mapByName_eq_self_of_find_none (cs : List ContainerRec) (n : String)
    (f : ContainerRec → ContainerRec) (h : findContainer cs n = none) :
    mapByName cs n f = cs := by
  induction cs with
  | nil => rfl
  | cons c cs ih =>
      by_cases h1 : c.name = n
      · simp [findContainer, h1] at h
      · simp only [findContainer, h1, if_false] at h
        have ih2 := ih h
        simp only [mapByName] at ih2 ⊢
        simp [h1, ih2]

/-! ## Characterizing one `start_app_container` call -/

theorem finalStartRec_name (st : SysState) (d n : String) :
    (finalStartRec st d n).name = containerNameOf n := by
  rw [finalStartRec]
  cases h : appDirFiles st n <;> simp [newContainerRec]

theorem start_state_rootFs (st : SysState) (d n : String) :
    (start_app_container st d n).state.rootFs = st.rootFs := by
  rw [start_app_container]
  cases h1 : findContainer st.containers (containerNameOf n) <;>
    cases h2 : appDirFiles st n <;> simp [h1, h2]

theorem start_state_containers (st : SysState) (d n : String) :
    (start_app_container st d n).state.containers =
      removeByName st.containers (containerNameOf n) ++ [finalStartRec st d n] := by
  rw [start_app_container, finalStartRec]
  cases h1 : findContainer st.containers (containerNameOf n) with
  | none =>
      rw [removeByName_eq_self_of_find_none st.containers (containerNameOf n) h1]
      cases h2 : appDirFiles st n <;>
        simp [h1, h2, mapByName_append, mapByName_singleton_self,
          mapByName_eq_self_of_find_none, newContainerRec]
  | some c0 =>
      cases h2 : appDirFiles st n <;>
        simp [h1, h2, mapByName_append, mapByName_removeByName,
          mapByName_singleton_self, newContainerRec]

theorem start_ok_iff (st : SysState) (d n : String) :
    (start_app_container st d n).ok = (appDirFiles st n).isSome := by
  rw [start_app_container]
  cases h1 : findContainer st.containers (containerNameOf n) <;>
    cases h2 : appDirFiles st n <;> simp [h1, h2]

theorem start_trace_eq (st : SysState) (d n : String) :
    (start_app_container st d n).trace =
      (match findContainer st.containers (containerNameOf n) with
       | some _ => [DockerOp.removeForce (containerNameOf n)]
       | none => []) ++
      DockerOp.create (containerNameOf n) "python:3.10-slim" "/user-app"
        "paw-web-network" (start_labels n d) "always" ::
      DockerOp.networkConnect "paw-web-network" (containerNameOf n) ::
      (match appDirFiles st n with
       | none => []
       | some files =>
           [DockerOp.putArchive (containerNameOf n) "/user-app" files,
            DockerOp.start (containerNameOf n)]) := by
  rw [start_app_container]
  cases h1 : findContainer st.containers (containerNameOf n) <;>
    cases h2 : appDirFiles st n <;> simp [h1, h2]

theorem start_countName_self (st : SysState) (d n : String) :
    countName (start_app_container st d n).state.containers (containerNameOf n) = 1 := by
  rw [start_state_containers, countName_append, countName_removeByName]
  simp [countName, finalStartRec_name]

theorem start_findContainer_self (st : SysState) (d n : String) :
    findContainer (start_app_container st d n).state.containers (containerNameOf n) =
      some (finalStartRec st d n) := by
  rw [start_state_containers]
  exact findContainer_append_singleton _ _ _ (finalStartRec_name st d n)
    (findContainer_removeByName _ _)

/-! ## Helper lemmas on the code store and the routes -/

theorem get_apps_loop_eq (cs : List ContainerRec) (d : String)
    (fs : List (String × FsEntry)) :
    get_apps_loop cs d fs = (fs.filter (fun e => isDirEntry e.2)).map (fun e =>
      { name := e.1
        status := statusOf cs e.1
        url := "http://" ++ e.1 ++ "." ++ d
        https_url := "https://" ++ e.1 ++ "." ++ d }) := by
  induction fs with
  | nil => rfl
  | cons e rest ih =>
      obtain ⟨k, entry⟩ := e
      cases entry <;> simp [get_apps_loop, isDirEntry, statusOf, ih]

theorem lookupFile_writeFile (files : List (String × String)) (fname content : String) :
    lookupFile (writeFile files fname content) fname = some content := by
  induction files with
  | nil => simp [writeFile, lookupFile]
  | cons kv rest ih =>
      obtain ⟨k, v⟩ := kv
      by_cases h : k = fname <;> simp [writeFile, lookupFile, h, ih]

theorem lookupEntry_writeEntry (fs : List (String × FsEntry)) (n code : String)
    (files : List (String × String))
    (h : lookupEntry fs n = some (FsEntry.dir files)) :
    lookupEntry (writeEntry fs n code) n =
      some (FsEntry.dir (writeFile files "app.py" code)) := by
  induction fs with
  | nil => simp [lookupEntry] at h
  | cons ke rest ih =>
      obtain ⟨k, e⟩ := ke
      by_cases h1 : k = n
      · simp only [lookupEntry, h1, if_true] at h
        cases e with
        | file c => simp at h
        | dir fsx =>
            simp only [Option.some.injEq, FsEntry.dir.injEq] at h
            subst h
            simp [writeEntry, lookupEntry, h1]
      · simp only [lookupEntry, h1, if_false] at h
        simp [writeEntry, lookupEntry, h1, ih h]

theorem appPyExists_eq_isSome (st : SysState) (n : String) :
    appPyExists st n = (readAppPy st n).isSome := by
  rw [appPyExists, readAppPy]
  cases h : lookupEntry st.rootFs n with
  | none => rfl
  | some e => cases e <;> rfl

theorem readAppPy_eq_of_rootFs (st1 st2 : SysState) (n : String)
    (h : st1.rootFs = st2.rootFs) : readAppPy st1 n = readAppPy st2 n := by
  rw [readAppPy, readAppPy, h]

theorem readAppPy_writeAppPy (st : SysState) (n code : String)
    (h : appPyExists st n = true) :
    readAppPy (writeAppPy st n code) n = some code := by
  rw [appPyExists] at h
  cases he : lookupEntry st.rootFs n with
  | none => rw [he] at h; simp at h
  | some e =>
      cases e with
      | file c => rw [he] at h; simp at h
      | dir files =>
          rw [readAppPy, writeAppPy]
          rw [lookupEntry_writeEntry st.rootFs n code files he]
          exact lookupFile_writeFile files "app.py" code

/-! ## Helper lemmas for the generated-name pattern -/

theorem isLowerAZ_ne_dash (c : Char) (h : isLowerAZ c = true) : ¬ c = '-' := by
  intro he
  subst he
  exact absurd h (by decide)

theorem matchRest_append (k : List Char → Bool) (w rest : List Char)
    (hw : ∀ c ∈ w, isLowerAZ c = true) :
    matchRest k (w ++ '-' :: rest) = k rest := by
  induction w with
  | nil => simp [matchRest]
  | cons c cs ih =>
      have hc := hw c (List.mem_cons_self c cs)
      have hne := isLowerAZ_ne_dash c hc
      simp [matchRest, hne, hc, ih (fun x hx => hw x (List.mem_cons_of_mem c hx))]

theorem matchWordDash_append (k : List Char → Bool) (w rest : List Char)
    (hw : ∀ c ∈ w, isLowerAZ c = true) (hne : w ≠ []) :
    matchWordDash k (w ++ '-' :: rest) = k rest := by
  cases w with
  | nil => exact absurd rfl hne
  | cons c cs =>
      have hc := hw c (List.mem_cons_self c cs)
      simp [matchWordDash, hc,
        matchRest_append k cs rest (fun x hx => hw x (List.mem_cons_of_mem c hx))]

theorem adjectives_facts :
    ∀ w ∈ adjectives, w.toList ≠ [] ∧ ∀ c ∈ w.toList, isLowerAZ c = true := by decide

theorem nouns_facts :
    ∀ w ∈ nouns, w.toList ≠ [] ∧ ∀ c ∈ w.toList, isLowerAZ c = true := by decide

set_option maxHeartbeats 2000000 in
set_option maxRecDepth 10000 in
theorem threeDigits_bounded :
    ∀ x : Nat, x < 1000 → 100 ≤ x → threeDigits (toString x).toList = true := by
  decide

/-! ## Claim theorems -/

/-- C1: for every app name `n`, calling `start_app_container` twice in
sequence leaves exactly one container named `user-app-<n>`: the second call
first force-removes the container created by the first (a NotFound there
would be ignored) and then issues exactly one create, so no previous
container is leaked. -/
theorem C1_start_or_replace_twice_exactly_one (st : SysState) (d n : String) :
    countName
        (start_app_container (start_app_container st d n).state d n).state.containers
        (containerNameOf n) = 1 ∧
    (start_app_container (start_app_container st d n).state d n).trace.head? =
      some (DockerOp.removeForce (containerNameOf n)) ∧
    ((start_app_container (start_app_container st d n).state d n).trace.filter
        isCreate).length = 1 := by
  refine ⟨start_countName_self _ _ _, ?_, ?_⟩
  · rw [start_trace_eq, start_findContainer_self]
    rfl
  · rw [start_trace_eq, start_findContainer_self]
    cases h2 : appDirFiles (start_app_container st d n).state n <;> simp [isCreate]

/-- C3: when the app's code directory exists, `start_app_container` runs to
completion and its runtime trace contains the create, then the archive push
of the full directory content into the working directory `/user-app`, then
the start, in that strict order. -/
theorem C3_code_pushed_after_create_before_start (st : SysState) (d n : String)
    (files : List (String × String)) (h : appDirFiles st n = some files) :
    (start_app_container st d n).ok = true ∧
    ∃ i j k : Nat, i < j ∧ j < k ∧
      (start_app_container st d n).trace[i]? =
        some (DockerOp.create (containerNameOf n) "python:3.10-slim" "/user-app"
          "paw-web-network" (start_labels n d) "always") ∧
      (start_app_container st d n).trace[j]? =
        some (DockerOp.putArchive (containerNameOf n) "/user-app" files) ∧
      (start_app_container st d n).trace[k]? =
        some (DockerOp.start (containerNameOf n)) := by
  constructor
  · rw [start_ok_iff, h]
    rfl
  · rw [start_trace_eq, h]
    cases h1 : findContainer st.containers (containerNameOf n)
    · exact ⟨0, 2, 3, by omega, by omega, rfl, rfl, rfl⟩
    · exact ⟨1, 3, 4, by omega, by omega, rfl, rfl, rfl⟩

/-- Witness for C3 at the concrete `demoState`. -/
theorem C3_witness :
    appDirFiles demoState "demo" = some [("app.py", "x = 1")] ∧
    ((start_app_container demoState "localhost" "demo").ok = true ∧
     ∃ i j k : Nat, i < j ∧ j < k ∧
       (start_app_container demoState "localhost" "demo").trace[i]? =
         some (DockerOp.create (containerNameOf "demo") "python:3.10-slim" "/user-app"
           "paw-web-network" (start_labels "demo" "localhost") "always") ∧
       (start_app_container demoState "localhost" "demo").trace[j]? =
         some (DockerOp.putArchive (containerNameOf "demo") "/user-app"
           [("app.py", "x = 1")]) ∧
       (start_app_container demoState "localhost" "demo").trace[k]? =
         some (DockerOp.start (containerNameOf "demo"))) :=
  ⟨rfl, C3_code_pushed_after_create_before_start demoState "localhost" "demo"
    [("app.py", "x = 1")] rfl⟩

/-- C4: the routing-label map built when starting a container carries the
rule `Host(<n>.<d>)` for both the plaintext router and the `-secure` router,
and the `-secure` router's labels reference a certificate resolver. -/
theorem C4_routing_labels (n d : String) :
    ("traefik.http.routers." ++ n ++ ".rule",
      "Host(`" ++ n ++ "." ++ d ++ "`)") ∈ start_labels n d ∧
    ("traefik.http.routers." ++ n ++ "-secure.rule",
      "Host(`" ++ n ++ "." ++ d ++ "`)") ∈ start_labels n d ∧
    ("traefik.http.routers." ++ n ++ "-secure.tls.certresolver", "myresolver")
      ∈ start_labels n d := by
  refine ⟨?_, ?_, ?_⟩ <;> simp [start_labels]

/-- C10: `start_app_container` attaches the new container to
`paw-web-network` twice — once through the network argument of the create
call and once through an explicit connect issued after the create and
before the archive push — leaving the record attached to that network
twice. -/
theorem C10_network_attached_twice (st : SysState) (d n : String)
    (files : List (String × String)) (h : appDirFiles st n = some files) :
    (∃ i j k : Nat, i < j ∧ j < k ∧
      (start_app_container st d n).trace[i]? =
        some (DockerOp.create (containerNameOf n) "python:3.10-slim" "/user-app"
          "paw-web-network" (start_labels n d) "always") ∧
      (start_app_container st d n).trace[j]? =
        some (DockerOp.networkConnect "paw-web-network" (containerNameOf n)) ∧
      (start_app_container st d n).trace[k]? =
        some (DockerOp.putArchive (containerNameOf n) "/user-app" files)) ∧
    ∃ c, findContainer (start_app_container st d n).state.containers
        (containerNameOf n) = some c ∧
      c.networks = ["paw-web-network", "paw-web-network"] := by
  constructor
  · rw [start_trace_eq, h]
    cases h1 : findContainer st.containers (containerNameOf n)
    · exact ⟨0, 1, 2, by omega, by omega, rfl, rfl, rfl⟩
    · exact ⟨1, 2, 3, by omega, by omega, rfl, rfl, rfl⟩
  · refine ⟨finalStartRec st d n, start_findContainer_self st d n, ?_⟩
    rw [finalStartRec, h]

/-- C2: `get_apps` emits exactly one view per immediate subdirectory of the
code root, in listing order, with the container's live status when
`user-app-<dirname>` exists and `"stopped"` otherwise, and with the url
`http://<name>.<base_domain>`; every emitted view corresponds to a code
directory, so a container with no matching directory produces no entry. -/
theorem C2_get_apps_one_view_per_dir (st : SysState) (d : String) :
    get_apps st d = (st.rootFs.filter (fun e => isDirEntry e.2)).map (fun e =>
      { name := e.1
        status := statusOf st.containers e.1
        url := "http://" ++ e.1 ++ "." ++ d
        https_url := "https://" ++ e.1 ++ "." ++ d }) ∧
    ∀ v ∈ get_apps st d, ∃ files, (v.name, FsEntry.dir files) ∈ st.rootFs := by
  constructor
  · exact get_apps_loop_eq st.containers d st.rootFs
  · intro v hv
    rw [get_apps, get_apps_loop_eq] at hv
    obtain ⟨e, he, hve⟩ := List.mem_map.mp hv
    have h2 := List.mem_filter.mp he
    obtain ⟨k, entry⟩ := e
    cases entry with
    | file c => simp [isDirEntry] at h2
    | dir files =>
        refine ⟨files, ?_⟩
        have hname : v.name = k := by rw [← hve]
        rw [hname]
        exact h2.1

/-- Witness for C2: the emitted view of the running `demo` app corresponds
to a code directory of `demoStateRunning`. -/
theorem C2_witness :
    ∃ files, ((("demo" : String), FsEntry.dir files) ∈ demoStateRunning.rootFs) :=
  (C2_get_apps_one_view_per_dir demoStateRunning "localhost").2
    { name := "demo", status := "running",
      url := "http://demo.localhost", https_url := "https://demo.localhost" }
    (by decide)

/-- C5 counterexample: the logs route carries no tail-lines parameter and
always asks the runtime for the last 100 lines, so at `tail_lines = 1` the
spec-modelled `fetch_logs` keeps only the final line while the route
returns both lines of the demo container. -/
theorem C5_counterexample :
    get_logs demoStateRunning "demo" =
      (demoStateRunning, Response.renderLogs "demo" ["line one", "line two"]) ∧
    fetch_logs_spec demoStateRunning "demo" 1 = some ["line two"] ∧
    (["line one", "line two"] : List String) ≠ ["line two"] := by
  refine ⟨rfl, rfl, by simp⟩

/-- C5 amended: `get_logs` takes only the app name; it leaves the state
unchanged, yields the user-visible not-found outcome exactly when no
container named `user-app-<app_name>` exists, and otherwise renders the
last 100 lines of that container's combined output. -/
theorem C5_amended_get_logs (st : SysState) (n : String) :
    (get_logs st n).1 = st ∧
    ((get_logs st n).2 = Response.notFound "Container not found" ↔
      findContainer st.containers ("user-app-" ++ n) = none) ∧
    (∀ c, findContainer st.containers ("user-app-" ++ n) = some c →
      (get_logs st n).2 = Response.renderLogs n (lastN 100 c.logs)) := by
  rw [get_logs]
  cases h : findContainer st.containers ("user-app-" ++ n) <;> simp [h]

/-- Witness for the amended C5 at the concrete `demoStateRunning`. -/
theorem C5_amended_witness :
    (get_logs demoStateRunning "demo").2 =
      Response.renderLogs "demo" (lastN 100 demoContainer.logs) :=
  (C5_amended_get_logs demoStateRunning "demo").2.2 demoContainer rfl

/-- C6: deleting an app name that has neither a container nor a code
directory succeeds silently: the state is unchanged and the route
redirects, with the absent container treated as success and the absent
directory skipped. -/
theorem C6_delete_absent_silent (st : SysState) (n : String)
    (hc : findContainer st.containers ("user-app-" ++ n) = none)
    (hd : lookupEntry st.rootFs n = none) :
    delete_app st n = (st, Response.redirectIndex) := by
  rw [delete_app]
  simp [hc, hd]

/-- Witness for C6: deleting the nonexistent name `ghost`. -/
theorem C6_witness :
    delete_app demoState "ghost" = (demoState, Response.redirectIndex) :=
  C6_delete_absent_silent demoState "ghost" rfl rfl

/-- C7: for an existing app, submitting code `X` through the edit POST
replaces the source file's full content, and the subsequent edit GET
returns exactly `X`. -/
theorem C7_write_read_roundtrip (st : SysState) (d n X : String)
    (h : appPyExists st n = true) :
    readAppPy (edit_app_post st d n X).1 n = some X ∧
    (edit_app_get (edit_app_post st d n X).1 n).2 = Response.renderEdit n X := by
  have hpost : (edit_app_post st d n X).1 =
      (start_app_container (writeAppPy st n X) d n).state := by
    rw [edit_app_post]
    simp [h, restart_app_container]
  have hread : readAppPy (edit_app_post st d n X).1 n = some X := by
    rw [hpost]
    rw [readAppPy_eq_of_rootFs _ (writeAppPy st n X) n
      (start_state_rootFs (writeAppPy st n X) d n)]
    exact readAppPy_writeAppPy st n X h
  refine ⟨hread, ?_⟩
  rw [edit_app_get, appPyExists_eq_isSome, hread]
  simp

/-- Witness for C7 at the concrete `demoState`. -/
theorem C7_witness :
    appPyExists demoState "demo" = true ∧
    (readAppPy (edit_app_post demoState "localhost" "demo" "y = 2").1 "demo" =
        some "y = 2" ∧
      (edit_app_get (edit_app_post demoState "localhost" "demo" "y = 2").1 "demo").2 =
        Response.renderEdit "demo" "y = 2") :=
  ⟨rfl, C7_write_read_roundtrip demoState "localhost" "demo" "y = 2" rfl⟩

/-- C9: when the app's source file exists, the GET branch of the edit route
is read-only: it returns the state unchanged (no write, no container
removal, creation, or restart) together with the file's current content. -/
theorem C9_edit_get_readonly (st : SysState) (n : String)
    (h : appPyExists st n = true) :
    (edit_app_get st n).1 = st ∧
    ∃ code, readAppPy st n = some code ∧
      (edit_app_get st n).2 = Response.renderEdit n code := by
  have h2 := appPyExists_eq_isSome st n
  rw [h] at h2
  cases hr : readAppPy st n with
  | none => rw [hr] at h2; simp at h2
  | some code =>
      exact ⟨by simp [edit_app_get, h, hr], code, rfl, by simp [edit_app_get, h, hr]⟩

/-- C8: every generated name matches `^[a-z]+-[a-z]+-\d\x7b3\x7d$` and is
drawn from the fixed lists of 10 adjectives and 10 nouns together with one
of the 900 three-digit numbers `randint(100, 999)` can produce. -/
theorem C8_generated_name_pattern (ai : Fin adjectives.length) (ni : Fin nouns.length)
    (k : Nat) (h1 : 100 ≤ k) (h2 : k ≤ 999) :
    matchesNamePattern (get_random_name ai ni k) = true ∧
    adjectives.length = 10 ∧ nouns.length = 10 ∧ (Finset.Icc 100 999).card = 900 := by
  refine ⟨?_, rfl, rfl, by rw [Nat.card_Icc]⟩
  have hA := adjectives_facts (adjectives.get ai) (List.get_mem adjectives ai.1 ai.2)
  have hN := nouns_facts (nouns.get ni) (List.get_mem nouns ni.1 ni.2)
  have hD := threeDigits_bounded k (by omega) h1
  have hsplit : (get_random_name ai ni k).toList =
      (adjectives.get ai).toList ++ '-' ::
        ((nouns.get ni).toList ++ '-' :: (toString k).toList) := by
    simp [get_random_name, String.toList]
  rw [matchesNamePattern, hsplit,
    matchWordDash_append _ _ _ hA.2 hA.1,
    matchWordDash_append _ _ _ hN.2 hN.1]
  exact hD

/-- Witness for C8 at adjective 0, noun 0, number 123. -/
theorem C8_witness :
    100 ≤ 123 ∧ 123 ≤ 999 ∧
    (matchesNamePattern (get_random_name ⟨0, by decide⟩ ⟨0, by decide⟩ 123) = true ∧
     adjectives.length = 10 ∧ nouns.length = 10 ∧ (Finset.Icc 100 999).card = 900) :=
  ⟨by decide, by decide,
    C8_generated_name_pattern ⟨0, by decide⟩ ⟨0, by decide⟩ 123 (by decide) (by decide)⟩

/-- Witness for C9 at the concrete `demoState`. -/
theorem C9_witness :
    appPyExists demoState "demo" = true ∧
    ((edit_app_get demoState "demo").1 = demoState ∧
      ∃ code, readAppPy demoState "demo" = some code ∧
        (edit_app_get demoState "demo").2 = Response.renderEdit "demo" code) :=
  ⟨rfl, C9_edit_get_readonly demoState "demo" rfl⟩

/-- Witness for C10 at the concrete `demoState`. -/
theorem C10_witness :
    appDirFiles demoState "demo" = some [("app.py", "x = 1")] ∧
    ((∃ i j k : Nat, i < j ∧ j < k ∧
      (start_app_container demoState "localhost" "demo").trace[i]? =
        some (DockerOp.create (containerNameOf "demo") "python:3.10-slim" "/user-app"
          "paw-web-network" (start_labels "demo" "localhost") "always") ∧
      (start_app_container demoState "localhost" "demo").trace[j]? =
        some (DockerOp.networkConnect "paw-web-network" (containerNameOf "demo")) ∧
      (start_app_container demoState "localhost" "demo").trace[k]? =
        some (DockerOp.putArchive (containerNameOf "demo") "/user-app"
          [("app.py", "x = 1")])) ∧
    ∃ c, findContainer (start_app_container demoState "localhost" "demo").state.containers
        (containerNameOf "demo") = some c ∧
      c.networks = ["paw-web-network", "paw-web-network"]) :=
  ⟨rfl, C10_network_attached_twice demoState "localhost" "demo"
    [("app.py", "x = 1")] rfl⟩

end Paw
